import Mathlib

/-!
Verification of the esp32-sound audio capture / playback specification.

The repository contains a T-Embed I2S tone-player
(`i2s_recorder/main/i2s_recorder_main.c`), its Kconfig menu and build
configuration.  The recorder core described by the specification (WAV
header builder, capture-to-file pipeline, session controller) is not
present among the source files; those components are modelled here from
the specification text, as marked on each definition.  The playback code
is embedded directly from the C source.
-/

namespace EspSound

/-! Little-endian encoding helpers used by the WAV header layout. -/

/-- Two little-endian bytes of a 16-bit field. -/
def le16 (n : Nat) : List Nat :=
  [n % 256, n / 256 % 256]

/-- Four little-endian bytes of a 32-bit field. -/
def le32 (n : Nat) : List Nat :=
  [n % 256, n / 256 % 256, n / 65536 % 256, n / 16777216 % 256]

/-- Decode two little-endian bytes starting at offset `off` (0 when out of range). -/
def readLE16 (bs : List Nat) (off : Nat) : Nat :=
  bs.getD off 0 + 256 * bs.getD (off + 1) 0

/-- Decode four little-endian bytes starting at offset `off` (0 when out of range). -/
def readLE32 (bs : List Nat) (off : Nat) : Nat :=
  bs.getD off 0 + 256 * bs.getD (off + 1) 0 +
    65536 * bs.getD (off + 2) 0 + 16777216 * bs.getD (off + 3) 0

/-! The WAV header builder. -/

/-- Bytes consumed by one multi-channel sample frame (§6 block align). -/
def blockAlign (bits_per_sample channel_count : Nat) : Nat :=
  channel_count * (bits_per_sample / 8)

/-- Payload bytes produced per second (§3: byte_rate =
sample_rate × (bits_per_sample/8) × channel_count). -/
def byteRate (sample_rate bits_per_sample channel_count : Nat) : Nat :=
  sample_rate * (bits_per_sample / 8) * channel_count

/-- Total payload bytes of a recording (§3: byte_rate × duration_seconds). -/
def totalBytesOf (sample_rate bits_per_sample channel_count duration_seconds : Nat) : Nat :=
  byteRate sample_rate bits_per_sample channel_count * duration_seconds

/-- Modelled from the spec: the `build_header` function of the recorder is not
among the source files; this follows the canonical PCM WAV layout table of
§6 byte for byte (RIFF magic, chunk size 36 + total_bytes, WAVE, fmt,
fmt size 16, PCM tag 1, channels, sample rate, byte rate, block align,
bits per sample, data magic, data size total_bytes), little-endian fields. -/
def build_header (total_bytes bits_per_sample sample_rate channel_count : Nat) : List Nat :=
  [82, 73, 70, 70] ++                                          -- RIFF
  le32 (36 + total_bytes) ++                                   -- chunk size
  [87, 65, 86, 69] ++                                          -- WAVE
  [102, 109, 116, 32] ++                                       -- fmt
  le32 16 ++                                                   -- fmt chunk size
  le16 1 ++                                                    -- audio format = PCM
  le16 channel_count ++                                        -- channels
  le32 sample_rate ++                                          -- sample rate
  le32 (sample_rate * blockAlign bits_per_sample channel_count) ++ -- byte rate
  le16 (blockAlign bits_per_sample channel_count) ++           -- block align
  le16 bits_per_sample ++                                      -- bits per sample
  [100, 97, 116, 97] ++                                        -- data
  le32 total_bytes                                             -- data size

/-! The capture-to-file pipeline and the session controller.

The recorder pipeline itself is absent from the source tree (only its
Kconfig menu and build configuration are present), so the state machine
of §4.3/§4.4 is modelled from the specification text. -/

/-- Result of one `Sample Source.read` call (§4.1): `ok` carries
`bytes_read`; `timeout` is transient; `peripheralError` is fatal. -/
inductive ReadResult
  | ok (bytesRead : Nat)
  | timeout
  | peripheralError
deriving DecidableEq, Repr

/-- Error taxonomy of §7 as seen by the caller. -/
inductive ErrKind
  | storageError
  | captureError
deriving DecidableEq, Repr

/-- Modelled from the spec: the §4.3 streaming loop is not among the
source files.  Repeats {read into a bounded buffer, append exactly
`bytes_read` bytes, accumulate `written += bytes_read`} until
`written ≥ total`; each read requests at most the remaining byte budget
`min buf (total - written)`, so that a source honouring the §4.1 bound
(bytes_read never above max_bytes) preserves the §7 exactness guarantee.
`timeout` retries the same read without advancing accounting;
`peripheralError` aborts with `CaptureError`; a failed file write aborts
with `StorageError`.  The source and write oracles are consumed one call
at a time; `fuel` bounds the number of iterations and `none` means the
bound was exhausted.  Returns `(written, readCalls, error?)`. -/
def streamLoop (buf total : Nat) :
    Nat → (Nat → Nat → ReadResult) → (Nat → Bool) → Nat → Nat →
      Option (Nat × Nat × Option ErrKind)
  | 0, _, _, written, calls =>
      if total ≤ written then some (written, calls, none) else none
  | fuel + 1, source, writeOk, written, calls =>
      if total ≤ written then some (written, calls, none)
      else
        match source 0 (min buf (total - written)) with
        | .ok n =>
            if writeOk 0 then
              streamLoop buf total fuel (fun i => source (i + 1))
                (fun i => writeOk (i + 1)) (written + n) (calls + 1)
            else some (written, calls + 1, some .storageError)
        | .timeout =>
            streamLoop buf total fuel (fun i => source (i + 1)) writeOk written (calls + 1)
        | .peripheralError => some (written, calls + 1, some .captureError)

/-- The §4.1 contract: a source never returns more bytes than the
`max_bytes` bound given by the caller. -/
def SourceRespectsMax (source : Nat → Nat → ReadResult) : Prop :=
  ∀ i m n, source i m = ReadResult.ok n → n ≤ m

/-- Final status a session reports to the caller (§3 Session State). -/
inductive SessionStatus
  | complete (writtenBytes : Nat)
  | failed (e : ErrKind)
deriving DecidableEq, Repr

/-- Observable outcome of one recording session: the reported status plus
what is observable on the device afterwards (whether the Sample Source
init ran, whether the output file was created, the size of the file,
the chunk/data sizes declared by the header on disk, and how many reads
were issued). -/
structure SessionOutcome where
  status : SessionStatus
  initCalled : Bool
  fileCreated : Bool
  fileBytes : Option Nat
  headerChunkSize : Option Nat
  headerDataSize : Option Nat
  readCalls : Nat
deriving DecidableEq, Repr

/-- Modelled from the spec: the §4.4 Session Controller is not among the
source files.  Mount → Sample Source init → open file → write the
44-byte header (declaring chunk 36 + total and data total, §3) →
streaming loop → finalize.  A mount failure short-circuits to
`Failed(StorageError)` before init or file creation; the file (header
plus whatever payload was appended) remains on storage even on abort. -/
def runSession (mountOk initOk openOk headerOk : Bool)
    (source : Nat → Nat → ReadResult) (writeOk : Nat → Bool)
    (buf total fuel : Nat) : Option SessionOutcome :=
  if mountOk = false then
    some ⟨SessionStatus.failed ErrKind.storageError, false, false, none, none, none, 0⟩
  else if initOk = false then
    some ⟨SessionStatus.failed ErrKind.captureError, true, false, none, none, none, 0⟩
  else if openOk = false then
    some ⟨SessionStatus.failed ErrKind.storageError, true, false, none, none, none, 0⟩
  else if headerOk = false then
    some ⟨SessionStatus.failed ErrKind.storageError, true, true, some 0, none, none, 0⟩
  else
    match streamLoop buf total fuel source writeOk 0 0 with
    | none => none
    | some (w, c, none) =>
        some ⟨SessionStatus.complete w, true, true, some (44 + w),
          some (36 + total), some total, c⟩
    | some (w, c, some e) =>
        some ⟨SessionStatus.failed e, true, true, some (44 + w),
          some (36 + total), some total, c⟩

/-- A source that always fills the requested maximum. -/
def fillSource : Nat → Nat → ReadResult :=
  fun _ m => ReadResult.ok m

/-- The source of the C3 scenario: 100 full 1000-byte reads, then a
peripheral error. -/
def c3Source : Nat → Nat → ReadResult :=
  fun i m => if i < 100 then ReadResult.ok m else ReadResult.peripheralError

/-- A source that answers the first `n` calls with `Timeout` and then
behaves like `source`. -/
def delaySource : Nat → (Nat → Nat → ReadResult) → Nat → Nat → ReadResult
  | 0, source => source
  | n + 1, source => fun i m => if i = 0 then ReadResult.timeout
      else delaySource n source (i - 1) m

/-! The tone table and the playback task of i2s_recorder_main.c. -/

/-- Initializer expressions of the `sine_wave_data` declaration, exactly
as written in i2s_recorder_main.c lines 31-92, as C `int` values. -/
def sine_wave_init : List Int :=
  [32767, 35287, 37615, 39675, 41415, 42794, 43784, 44365, 44524, 44258,
   43571, 42472, 41079, 39411, 37496, 35363, 33042, 30571, 27985, 25323,
   22627, 19935, 17289, 14727, 12288, 10010, 7927, 6074, 4481, 3180, 2195,
   1548, 1257, 1335, 1790, 2625, 3837, 5418, 7355, 9629, 12217, 15092,
   18224, 21582, 25133, 28845, 32683, 36613, 40600, 44609, 48604, 52549,
   56408, 60147, 63732, 67128, 70303, 73225, 75864, 78192, 80183, 81814,
   83062, 83908, 84335, 84329, 83877, 82971, 81601, 79764, 77456, 74677,
   71430, 67720, 63556, 58950, 53916, 48471, 42635, 36429, 29877, 23006,
   15844, 8423, 772, -7093, -15130, -23300, -31564, -39886, -48228, -56554,
   -64826, -73007, -81062, -88954, -96650, -104114, -111313, -118214,
   -124785, -130995, -136815, -142215, -147168, -151648, -155631, -159093,
   -162015, -164375, -166157, -167345, -167923, -167880, -167205, -165890,
   -163929, -161316, -158049, -154125, -149544, -144307, -138419, -131884,
   -124710, -116904, -108477, -99442, -89813, -79605, -68837, -57528,
   -45700, -33375, -20576, -7327, 6349, 20427, 34923, 49808, 65054, 80632,
   96514, 112671, 129073, 145691, 162494, 179452, 196534, 213710, 230949,
   248219, 265489, 282727, 299903, 316986, 333944, 350746, 367361, 383757,
   399904, 415769, 431322, 446531, 461365, 475793, 489783, 503304, 516326,
   528818, 540751, 552094, 562819, 572897, 582300, 590999, 598968, 606179,
   612606, 618224, 623007, 626932, 629976, 632118, 633338, 633616, 632935,
   631278, 628629, 624974, 620300, 614593, 607843, 600039, 591174, 581240,
   570230, 558138, 544959, 530690, 515329, 498875, 481329, 462692, 442968,
   422162, 400280, 377329, 353318, 328256, 302154, 275024, 246880, 217735,
   187605, 156507, 124460, 91483, 57596, 22821, -12819, -49296, -86574,
   -124622, -163408, -202900, -243063, -283862, -325260, -367220, -409704,
   -452674, -496090, -539911, -584096, -628603, -673389, -718410, -763623,
   -808983, -854444, -899962, -945491, -990986, -1036400, -1081688,
   -1126803, -1171699, -1216329, -1260648, -1304609, -1348167, -1391277,
   -1433892, -1475968, -1517460, -1558322, -1598508, -1637974, -1676673,
   -1714562, -1751596, -1787731, -1822923, -1857128, -1890302, -1922401,
   -1953382, -1983201, -2011817, -2039188, -2065270, -2090022, -2113402,
   -2135369, -2155881, -2174897, -2192377, -2208280, -2222566, -2235195,
   -2246127, -2255323, -2262742, -2268346, -2272096, -2273954, -2273881,
   -2271840, -2267793, -2261703, -2253534, -2243248, -2230809, -2216181,
   -2199329, -2180218, -2158813, -2135079, -2108982, -2080488, -2049563,
   -2016174, -1980288, -1941873, -1900897, -1857328, -1811135, -1762287,
   -1710754, -1656505, -1599511, -1539744, -1477176, -1411779, -1343528,
   -1272397, -1198362, -1121398, -1041482, -958591, -872703, -783796,
   -691849, -596843, -498759, -397579, -293284, -185857, -75281, 37456,
   152366, 269453, 388732, 510216, 633918, 759852, 888031, 1018467,
   1151173, 1286161, 1423444, 1563033, 1704940, 1849177, 1995754, 2144683,
   2295975, 2449640, 2605689, 2764133, 2924982, 3088246, 3253935, 3422058,
   3592625, 3765646, 3941129, 4119084, 4299520, 4482445, 4667868, 4855798,
   5046244, 5239214, 5434717, 5632761, 5833354, 6036505, 6242223, 6450516,
   6661393, 6874862, 7090932, 7309610, 7530905, 7754825, 7981379, 8210575,
   8442420, 8676923, 8914092, 9153935, 9396460, 9641675, 9889587, 10140205,
   10393537, 10649591, 10908374, 11169895, 11434161, 11701181, 11970963,
   12243514, 12518842, 12796955, 13077860, 13361566, 13648079, 13937408,
   14229560, 14524543, 14822364, 15123030, 15426549, 15732928, 16042175,
   16354297, 16669302, 16987197, 17307990, 17631688, 17958299, 18287831,
   18620291, 18955687, 19294027, 19635318, 19979568, 20326785, 20676977,
   21030151, 21386315, 21745477, 22107644, 22472824, 22841025, 23212254,
   23586520, 23963830, 24344192, 24727614, 25114103, 25503667, 25896314,
   26292052, 26690888, 27092831, 27497889, 27906069, 28317379, 28731827,
   29149420, 29570166, 29994073, 30421148, 30851400, 31284837, 31721467,
   32161298]

/-- C conversion of an `int` value to `uint16_t`: reduction modulo 2^16. -/
def toUint16 (x : Int) : Nat :=
  (x % 65536).toNat

/-- The stored array: the declared element type is `uint16_t`, so each
initializer is converted on initialization, i.e. reduced modulo 2^16. -/
def sine_wave_data : List Nat :=
  sine_wave_init.map toUint16

/-- SINE_WAVE_SIZE = sizeof(sine_wave_data) / sizeof(sine_wave_data[0]). -/
def SINE_WAVE_SIZE : Nat :=
  sine_wave_data.length

/-- Observable events of `play_tone_task`: each `i2s_channel_write` call
(tagged with the outer sequence index, the inner repeat index, the data
transmitted, the byte count passed, and whether the write returned
ESP_OK), and the final channel-disable/delete cleanup. -/
inductive PlayEvent
  | write (seq rep : Nat) (data : List Nat) (byteCount : Nat) (ok : Bool)
  | cleanup
deriving DecidableEq, Repr

/-- The inner repeat loop of `play_tone_task` (lines 167-181): up to 50
writes of `sine_wave_data` (`SINE_WAVE_SIZE * sizeof(uint16_t)` bytes);
a failed write breaks out of this loop only.  `f` tells whether the
write at a given repeat index succeeds. -/
def innerRepeats (pc : Nat) (f : Nat → Bool) : Nat → Nat → List PlayEvent
  | _, 0 => []
  | rep, fuel + 1 =>
      PlayEvent.write pc rep sine_wave_data (2 * SINE_WAVE_SIZE) (f rep) ::
        (if f rep then innerRepeats pc f (rep + 1) fuel else [])

/-- The events of one play sequence (50 scheduled repeats). -/
def seqEvents (ok : Nat → Nat → Bool) (pc : Nat) : List PlayEvent :=
  innerRepeats pc (ok pc) 0 50

/-- The outer while loop of `play_tone_task` (lines 162-188): sequences
`pc, pc+1, ...` for `fuel` iterations. -/
def outerPlays (ok : Nat → Nat → Bool) : Nat → Nat → List PlayEvent
  | _, 0 => []
  | pc, fuel + 1 => seqEvents ok pc ++ outerPlays ok (pc + 1) fuel

/-- `play_tone_task` (lines 154-197): ten play sequences, then the
channel-disable/delete cleanup.  `ok seq rep` tells whether the
`i2s_channel_write` call at that position returns ESP_OK. -/
def playToneTask (ok : Nat → Nat → Bool) : List PlayEvent :=
  outerPlays ok 0 10 ++ [PlayEvent.cleanup]

/-- Channel lifecycle events of `test_different_pins`. -/
inductive ChanEvent
  | disable
  | delete
  | create (ok : Bool)
deriving DecidableEq, Repr

/-- One iteration per pin configuration (lines 218-289): if a handle is
live it is disabled, deleted and set to NULL first; then
`i2s_new_channel` is tried (`newOk i`).  On creation failure the
iteration continues with no live handle; after a successful creation the
handle stays live into the next iteration (a failed init or enable
performs no cleanup of its own, lines 259-288). -/
def pinLoop (newOk : Nat → Bool) : Nat → Nat → Bool → List ChanEvent
  | _, 0, _ => []
  | i, fuel + 1, live =>
      if live then
        ChanEvent.disable :: ChanEvent.delete ::
          ChanEvent.create (newOk i) :: pinLoop newOk (i + 1) fuel (newOk i)
      else
        ChanEvent.create (newOk i) :: pinLoop newOk (i + 1) fuel (newOk i)

/-- `test_different_pins`: five pin configurations, starting with
`tx_handle = NULL`. -/
def testDifferentPins (newOk : Nat → Bool) : List ChanEvent :=
  pinLoop newOk 0 5 false

/-- Lifecycle checker: walks a trace counting live channels.  `disable`
and `delete` demand exactly one live channel (so no handle is deleted
twice), `create` demands zero (so no second channel is created over a
live one, and the count never exceeds one); any violation yields
`none`. -/
def liveAfter : List ChanEvent → Nat → Option Nat
  | [], n => some n
  | ChanEvent.disable :: rest, n => if n = 1 then liveAfter rest n else none
  | ChanEvent.delete :: rest, n => if n = 1 then liveAfter rest 0 else none
  | ChanEvent.create ok :: rest, n =>
      if n = 0 then liveAfter rest (if ok then 1 else 0) else none

/-- Recognizer for channel-creation events. -/
def isCreate : ChanEvent → Bool
  | ChanEvent.create _ => true
  | _ => false

/-! Theorems: claim theorems C1-C10, their witnesses, and helper
lemmas. -/

/-- C1: for every valid combination of parameters, `build_header` returns
exactly 44 bytes whose fields sit at the §6 offsets, with the RIFF chunk
size equal to 36 + total_bytes and the data chunk size equal to
total_bytes.  Validity bounds each field below the capacity of its
little-endian slot. -/
theorem c1_build_header_layout (tb bits sr ch : Nat)
    (htb : 36 + tb < 4294967296)
    (hsr : sr < 4294967296)
    (hbr : sr * blockAlign bits ch < 4294967296)
    (hch : ch < 65536)
    (hba : blockAlign bits ch < 65536)
    (hbits : bits < 65536) :
    (build_header tb bits sr ch).length = 44 ∧
    (build_header tb bits sr ch).take 4 = [82, 73, 70, 70] ∧
    readLE32 (build_header tb bits sr ch) 4 = 36 + tb ∧
    ((build_header tb bits sr ch).drop 8).take 4 = [87, 65, 86, 69] ∧
    ((build_header tb bits sr ch).drop 12).take 4 = [102, 109, 116, 32] ∧
    readLE32 (build_header tb bits sr ch) 16 = 16 ∧
    readLE16 (build_header tb bits sr ch) 20 = 1 ∧
    readLE16 (build_header tb bits sr ch) 22 = ch ∧
    readLE32 (build_header tb bits sr ch) 24 = sr ∧
    readLE32 (build_header tb bits sr ch) 28 = sr * blockAlign bits ch ∧
    readLE16 (build_header tb bits sr ch) 32 = blockAlign bits ch ∧
    readLE16 (build_header tb bits sr ch) 34 = bits ∧
    ((build_header tb bits sr ch).drop 36).take 4 = [100, 97, 116, 97] ∧
    readLE32 (build_header tb bits sr ch) 40 = tb := by
  refine ⟨?_, ?_, ?_, ?_, ?_, ?_, ?_, ?_, ?_, ?_, ?_, ?_, ?_, ?_⟩ <;>
    simp [build_header, le16, le32, readLE16, readLE32, List.getD] <;> omega

/-- Witness for C1 at the configuration of the repository:
16 kHz, 16-bit, mono, 320000 payload bytes. -/
theorem c1_build_header_layout_witness :
    (build_header 320000 16 16000 1).length = 44 ∧
    readLE32 (build_header 320000 16 16000 1) 4 = 36 + 320000 ∧
    readLE32 (build_header 320000 16 16000 1) 40 = 320000 :=
  ⟨(c1_build_header_layout 320000 16 16000 1 (by decide) (by decide) (by decide)
      (by decide) (by decide) (by decide)).1,
   (c1_build_header_layout 320000 16 16000 1 (by decide) (by decide) (by decide)
      (by decide) (by decide) (by decide)).2.2.1,
   (c1_build_header_layout 320000 16 16000 1 (by decide) (by decide) (by decide)
      (by decide) (by decide) (by decide)).2.2.2.2.2.2.2.2.2.2.2.2.2⟩

/-- C7: the derived quantities obey exact integer arithmetic; with
sample_rate 16000, 16 bits per sample, one channel and a 10-second
duration, byte_rate is 32000, total_bytes is 320000, and the header
declares chunk_size 320036 and data_size 320000. -/
theorem c7_derived_quantities :
    (∀ sr bits ch, byteRate sr bits ch = sr * (bits / 8) * ch) ∧
    (∀ sr bits ch d, totalBytesOf sr bits ch d = byteRate sr bits ch * d) ∧
    byteRate 16000 16 1 = 32000 ∧
    totalBytesOf 16000 16 1 10 = 320000 ∧
    readLE32 (build_header (totalBytesOf 16000 16 1 10) 16 16000 1) 4 = 320036 ∧
    readLE32 (build_header (totalBytesOf 16000 16 1 10) 16 16000 1) 40 = 320000 :=
  ⟨fun _ _ _ => rfl, fun _ _ _ _ => rfl, by decide, by decide, by decide, by decide⟩

theorem sourceRespectsMax_shift {source : Nat → Nat → ReadResult}
    (h : SourceRespectsMax source) : SourceRespectsMax (fun i => source (i + 1)) :=
  fun i m n hi => h (i + 1) m n hi

/-- If the streaming loop finishes without an error and starts within the
byte budget, the accumulated byte count equals `total` exactly. -/
theorem streamLoop_complete_exact (buf total : Nat) :
    ∀ (fuel : Nat) (source : Nat → Nat → ReadResult) (writeOk : Nat → Bool)
      (w c w2 c2 : Nat),
      SourceRespectsMax source → w ≤ total →
      streamLoop buf total fuel source writeOk w c = some (w2, c2, none) →
      w2 = total := by
  intro fuel
  induction fuel with
  | zero =>
      intro source writeOk w c w2 c2 hsrc hw hrun
      rw [streamLoop] at hrun
      split at hrun
      · rename_i hle
        simp only [Option.some.injEq, Prod.mk.injEq] at hrun
        omega
      · simp at hrun
  | succ n ih =>
      intro source writeOk w c w2 c2 hsrc hw hrun
      rw [streamLoop] at hrun
      split at hrun
      · rename_i hle
        simp only [Option.some.injEq, Prod.mk.injEq] at hrun
        omega
      · rename_i hlt
        split at hrun
        · rename_i n0 hread
          split at hrun
          · have hn0 : n0 ≤ min buf (total - w) := hsrc 0 _ n0 hread
            exact ih _ _ _ _ _ _ (sourceRespectsMax_shift hsrc) (by omega) hrun
          · simp at hrun
        · exact ih _ _ _ _ _ _ (sourceRespectsMax_shift hsrc) hw hrun
        · simp at hrun

/-- C2: whenever a session ends with status `Complete`, the accumulated
written byte count equals `total_bytes` exactly — not merely at least
`total_bytes` — given the §4.1 contract that a read never returns more
than the requested maximum. -/
theorem c2_complete_written_exact (mountOk initOk openOk headerOk : Bool)
    (source : Nat → Nat → ReadResult) (writeOk : Nat → Bool)
    (buf total fuel : Nat) (o : SessionOutcome) (w : Nat)
    (hsrc : SourceRespectsMax source)
    (hrun : runSession mountOk initOk openOk headerOk source writeOk buf total fuel = some o)
    (hst : o.status = SessionStatus.complete w) :
    w = total := by
  unfold runSession at hrun
  split at hrun
  · cases hrun; simp at hst
  · split at hrun
    · cases hrun; simp at hst
    · split at hrun
      · cases hrun; simp at hst
      · split at hrun
        · cases hrun; simp at hst
        · split at hrun
          · simp at hrun
          · rename_i w2 c2 hloop
            have hw2 : w2 = total :=
              streamLoop_complete_exact buf total fuel source writeOk 0 0 w2 c2 hsrc
                (Nat.zero_le total) hloop
            injection hrun with h
            cases h
            simp at hst
            omega
          · rename_i w2 c2 e hloop
            injection hrun with h
            cases h
            simp at hst

theorem fillSource_respects : SourceRespectsMax fillSource := by
  intro i m n h
  injection h with h
  omega

/-- Witness for C2: a 3500-byte session over a 1000-byte buffer completes
in 4 reads with written byte count exactly 3500. -/
theorem c2_complete_written_exact_witness :
    SourceRespectsMax fillSource ∧
    runSession true true true true fillSource (fun _ => true) 1000 3500 10 =
      some ⟨SessionStatus.complete 3500, true, true, some 3544, some 3536, some 3500, 4⟩ ∧
    3500 = 3500 :=
  ⟨fillSource_respects, by decide,
   c2_complete_written_exact true true true true fillSource (fun _ => true) 1000 3500 10
     ⟨SessionStatus.complete 3500, true, true, some 3544, some 3536, some 3500, 4⟩ 3500
     fillSource_respects (by decide) rfl⟩

/-- C3: a `PeripheralError` after 100000 of 320000 target bytes makes the
session report `Failed(CaptureError)`; the file remains on storage with
exactly 44 + 100000 bytes while the header on disk still declares
data_size 320000 (and chunk_size 320036), the pre-declared target. -/
theorem c3_peripheral_error_partial_file :
    runSession true true true true c3Source (fun _ => true) 1000 320000 200 =
      some ⟨SessionStatus.failed ErrKind.captureError, true, true, some 100044,
        some 320036, some 320000, 101⟩ := by
  decide

/-- Shifting the initial call counter only shifts the reported call count. -/
theorem streamLoop_calls_shift (buf total : Nat) :
    ∀ (fuel : Nat) (source : Nat → Nat → ReadResult) (writeOk : Nat → Bool)
      (w c k : Nat),
      streamLoop buf total fuel source writeOk w (c + k) =
        (streamLoop buf total fuel source writeOk w c).map
          (fun r => (r.1, r.2.1 + k, r.2.2)) := by
  intro fuel
  induction fuel with
  | zero =>
      intro source writeOk w c k
      rw [streamLoop, streamLoop]
      split <;> simp
  | succ n ih =>
      intro source writeOk w c k
      rw [streamLoop]
      conv_rhs => rw [streamLoop]
      split
      · simp
      · split
        · split
          · rw [show c + k + 1 = (c + 1) + k by omega, ih]
          · simp; omega
        · rw [show c + k + 1 = (c + 1) + k by omega, ih]
        · simp; omega

theorem delaySource_shift (n : Nat) (source : Nat → Nat → ReadResult) :
    (fun i => delaySource (n + 1) source (i + 1)) = delaySource n source := by
  funext i m
  simp [delaySource]

/-- C4: a source returning `Timeout` N times before data leaves the run
unchanged except for N extra read calls: the same read is retried, the
written byte count is unaffected by the N timeouts, no failure is
introduced, and the declared total_bytes contract is preserved (the final
result — status and written bytes — is exactly that of the undelayed
source). -/
theorem c4_timeout_transparent (buf total : Nat) :
    ∀ (N fuel : Nat) (source : Nat → Nat → ReadResult) (writeOk : Nat → Bool)
      (w c : Nat), w < total →
      streamLoop buf total (N + fuel) (delaySource N source) writeOk w c =
        (streamLoop buf total fuel source writeOk w c).map
          (fun r => (r.1, r.2.1 + N, r.2.2)) := by
  intro N
  induction N with
  | zero =>
      intro fuel source writeOk w c hw
      rw [Nat.zero_add]
      show streamLoop buf total fuel source writeOk w c = _
      cases h : streamLoop buf total fuel source writeOk w c <;> simp
  | succ n ih =>
      intro fuel source writeOk w c hw
      rw [show n + 1 + fuel = (n + fuel) + 1 by omega, streamLoop]
      rw [if_neg (by omega)]
      show (match delaySource (n + 1) source 0 (min buf (total - w)) with
        | ReadResult.ok k =>
            if writeOk 0 then
              streamLoop buf total (n + fuel) (fun i => delaySource (n + 1) source (i + 1))
                (fun i => writeOk (i + 1)) (w + k) (c + 1)
            else some (w, c + 1, some ErrKind.storageError)
        | ReadResult.timeout =>
            streamLoop buf total (n + fuel) (fun i => delaySource (n + 1) source (i + 1))
              writeOk w (c + 1)
        | ReadResult.peripheralError => some (w, c + 1, some ErrKind.captureError)) = _
      rw [show delaySource (n + 1) source 0 (min buf (total - w)) = ReadResult.timeout
        from by simp [delaySource]]
      rw [delaySource_shift]
      rw [ih fuel source writeOk w (c + 1) hw]
      rw [streamLoop_calls_shift buf total fuel source writeOk w c 1]
      cases streamLoop buf total fuel source writeOk w c with
      | none => simp
      | some r => simp; omega

/-- Witness for C4 at N = 3 over a 2000-byte target. -/
theorem c4_timeout_transparent_witness :
    0 < 2000 ∧
    streamLoop 1000 2000 (3 + 5) (delaySource 3 fillSource) (fun _ => true) 0 0 =
      (streamLoop 1000 2000 5 fillSource (fun _ => true) 0 0).map
        (fun r => (r.1, r.2.1 + 3, r.2.2)) :=
  ⟨by decide,
   c4_timeout_transparent 1000 2000 3 5 fillSource (fun _ => true) 0 0 (by decide)⟩

/-- C5: if Storage Mount fails the session reports
`Failed(StorageError)` with Sample Source init never invoked and no file
created (and no read ever issued), whatever the remaining collaborators
would have done. -/
theorem c5_mount_failure_short_circuit (initOk openOk headerOk : Bool)
    (source : Nat → Nat → ReadResult) (writeOk : Nat → Bool) (buf total fuel : Nat) :
    runSession false initOk openOk headerOk source writeOk buf total fuel =
      some ⟨SessionStatus.failed ErrKind.storageError, false, false, none, none, none, 0⟩ := by
  simp [runSession]

/-- C6: with `total_bytes = 0` a session completes with a header-only
44-byte file and the streaming loop terminates immediately with zero
read calls, for every source, write oracle, buffer size and fuel. -/
theorem c6_zero_total_header_only (source : Nat → Nat → ReadResult)
    (writeOk : Nat → Bool) (buf fuel : Nat) :
    runSession true true true true source writeOk buf 0 fuel =
      some ⟨SessionStatus.complete 0, true, true, some 44, some 36, some 0, 0⟩ := by
  cases fuel <;> simp [runSession, streamLoop]

/-- Every event of the inner repeat loop is a write of `sine_wave_data`
for this sequence, and every repeat index strictly before it had a
successful write (the loop stops right after the first failure). -/
theorem innerRepeats_shape (pc : Nat) (f : Nat → Bool) :
    ∀ (fuel rep : Nat) (e : PlayEvent), e ∈ innerRepeats pc f rep fuel →
      ∃ r b, e = PlayEvent.write pc r sine_wave_data (2 * SINE_WAVE_SIZE) b ∧
        rep ≤ r ∧ ∀ i, rep ≤ i → i < r → f i = true := by
  intro fuel
  induction fuel with
  | zero => intro rep e he; simp [innerRepeats] at he
  | succ n ih =>
      intro rep e he
      rw [innerRepeats] at he
      rcases List.mem_cons.mp he with h | h
      · exact ⟨rep, f rep, h, Nat.le_refl rep, fun i h1 h2 => absurd h1 (by omega)⟩
      · by_cases hf : f rep = true
        · rw [if_pos hf] at h
          obtain ⟨r, b, hform, hle, hall⟩ := ih (rep + 1) e h
          refine ⟨r, b, hform, by omega, fun i h1 h2 => ?_⟩
          rcases Nat.eq_or_lt_of_le h1 with rfl | hlt
          · exact hf
          · exact hall i (by omega) h2
        · rw [if_neg hf] at h
          simp at h

/-- The first scheduled write of an inner loop is always attempted. -/
theorem innerRepeats_head (pc : Nat) (f : Nat → Bool) (rep fuel : Nat) :
    PlayEvent.write pc rep sine_wave_data (2 * SINE_WAVE_SIZE) (f rep) ∈
      innerRepeats pc f rep (fuel + 1) := by
  rw [innerRepeats]
  exact List.mem_cons_self _ _

/-- Events of a scheduled sequence appear in the outer loop trace. -/
theorem outerPlays_mem_of (ok : Nat → Nat → Bool) :
    ∀ (fuel pc0 pc : Nat) (e : PlayEvent), pc0 ≤ pc → pc < pc0 + fuel →
      e ∈ seqEvents ok pc → e ∈ outerPlays ok pc0 fuel := by
  intro fuel
  induction fuel with
  | zero => intro pc0 pc e h1 h2; omega
  | succ n ih =>
      intro pc0 pc e h1 h2 he
      rw [outerPlays]
      rcases Nat.eq_or_lt_of_le h1 with rfl | hlt
      · exact List.mem_append_left _ he
      · exact List.mem_append_right _ (ih (pc0 + 1) pc e (by omega) (by omega) he)

/-- Every event of the outer loop trace belongs to one of its scheduled
sequences. -/
theorem outerPlays_mem_inv (ok : Nat → Nat → Bool) :
    ∀ (fuel pc0 : Nat) (e : PlayEvent), e ∈ outerPlays ok pc0 fuel →
      ∃ pc, pc0 ≤ pc ∧ pc < pc0 + fuel ∧ e ∈ seqEvents ok pc := by
  intro fuel
  induction fuel with
  | zero => intro pc0 e he; simp [outerPlays] at he
  | succ n ih =>
      intro pc0 e he
      rw [outerPlays] at he
      rcases List.mem_append.mp he with h | h
      · exact ⟨pc0, Nat.le_refl pc0, by omega, h⟩
      · obtain ⟨pc, h1, h2, h3⟩ := ih (pc0 + 1) e h
        exact ⟨pc, by omega, by omega, h3⟩

set_option maxRecDepth 4096 in
/-- C8: `sine_wave_data` is declared `uint16_t` yet initialized with
values outside [0, 65535] — negative ones and ones up to 32161298 —
so each stored element is its initializer reduced modulo 2^16 (the
initializer -7093 at index 85 is stored as 58443, every stored element
fits in 16 bits), and every `i2s_channel_write` call of the playback
task transmits exactly these wrapped values. -/
theorem c8_sine_wave_wrapping :
    sine_wave_data = sine_wave_init.map toUint16 ∧
    (∃ x ∈ sine_wave_init, x < 0) ∧
    (-7093 : Int) ∈ sine_wave_init ∧
    sine_wave_init.getD 85 0 = -7093 ∧
    toUint16 (-7093) = 58443 ∧
    sine_wave_data.getD 85 0 = 58443 ∧
    (32161298 : Int) ∈ sine_wave_init ∧
    (∀ x ∈ sine_wave_data, x ≤ 65535) ∧
    (∀ (ok : Nat → Nat → Bool) (e : PlayEvent), e ∈ playToneTask ok →
      e = PlayEvent.cleanup ∨
        ∃ pc rep b, e = PlayEvent.write pc rep sine_wave_data (2 * SINE_WAVE_SIZE) b) := by
  refine ⟨rfl, by decide, by decide, by decide, by decide, by decide, by decide,
    by decide, ?_⟩
  intro ok e he
  rcases List.mem_append.mp he with h | h
  · obtain ⟨pc, _, _, hseq⟩ := outerPlays_mem_inv ok 10 0 _ h
    obtain ⟨r, b, hform, _, _⟩ := innerRepeats_shape pc (ok pc) 50 0 _ hseq
    exact Or.inr ⟨pc, r, b, hform⟩
  · simp at h
    exact Or.inl h

/-- C9: a failed `i2s_channel_write` exits only the inner 50-iteration
repeat loop: whatever the pattern of write failures, the cleanup still
runs as the last event, each of the 10 sequences still attempts its
first write (so playback is attempted again after an error in an earlier
sequence), and after a failed write at repeat j of a sequence no write
with a later repeat index occurs in that sequence. -/
theorem c9_write_failure_breaks_inner_only (ok : Nat → Nat → Bool) :
    (playToneTask ok).getLast? = some PlayEvent.cleanup ∧
    (∀ pc, pc < 10 →
      PlayEvent.write pc 0 sine_wave_data (2 * SINE_WAVE_SIZE) (ok pc 0) ∈
        playToneTask ok) ∧
    (∀ pc j r d m b, ok pc j = false → j < r →
      PlayEvent.write pc r d m b ∉ playToneTask ok) := by
  refine ⟨?_, ?_, ?_⟩
  · simp [playToneTask]
  · intro pc hpc
    exact List.mem_append_left _
      (outerPlays_mem_of ok 10 0 pc _ (Nat.zero_le pc) (by omega)
        (innerRepeats_head pc (ok pc) 0 49))
  · intro pc j r d m b hfail hjr habs
    rcases List.mem_append.mp habs with h | h
    · obtain ⟨pc2, _, _, hseq⟩ := outerPlays_mem_inv ok 10 0 _ h
      obtain ⟨r2, b2, hform, _, hall⟩ := innerRepeats_shape pc2 (ok pc2) 50 0 _ hseq
      injection hform with e1 e2 e3 e4 e5
      subst e1
      subst e2
      have := hall j (Nat.zero_le j) (by omega)
      rw [hfail] at this
      exact Bool.false_ne_true this
    · simp at h

/-- Starting from a state with the matching live count, the pin-test
loop never violates the channel lifecycle discipline. -/
theorem pinLoop_liveAfter (newOk : Nat → Bool) :
    ∀ (fuel i : Nat) (live : Bool),
      (liveAfter (pinLoop newOk i fuel live) (if live then 1 else 0)).isSome = true := by
  intro fuel
  induction fuel with
  | zero => intro i live; simp [pinLoop, liveAfter]
  | succ n ih =>
      intro i live
      cases live
      · simpa [pinLoop, liveAfter] using ih (i + 1) (newOk i)
      · simpa [pinLoop, liveAfter] using ih (i + 1) (newOk i)

/-- The pin-test loop attempts exactly one channel creation per
configuration. -/
theorem pinLoop_creates (newOk : Nat → Bool) :
    ∀ (fuel i : Nat) (live : Bool),
      ((pinLoop newOk i fuel live).filter isCreate).length = fuel := by
  intro fuel
  induction fuel with
  | zero => intro i live; simp [pinLoop]
  | succ n ih =>
      intro i live
      cases live <;> simp [pinLoop, isCreate, List.filter, ih (i + 1) (newOk i)]

/-- C10: `test_different_pins` keeps at most one I2S channel alive at any
time: its event trace passes the lifecycle checker from the NULL initial
state (every disable/delete acts on exactly one live handle — no double
delete — and every creation happens with no live handle), across exactly
5 creation attempts, whatever subset of the `i2s_new_channel` calls
succeeds. -/
theorem c10_single_channel_invariant (newOk : Nat → Bool) :
    (liveAfter (testDifferentPins newOk) 0).isSome = true ∧
    ((testDifferentPins newOk).filter isCreate).length = 5 := by
  constructor
  · simpa using pinLoop_liveAfter newOk 5 0 false
  · exact pinLoop_creates newOk 5 0 false

end EspSound
